import Mathlib

/-!
Verification development for the HiveMind task-orchestration engine.

The Python sources are shallowly embedded as executable Lean definitions:

* `Json` models the decoded JSON value a model response carries.
* `Raw` models a raw backend response: its text (as stored in message
  history) together with the result of JSON-decoding it (`none` when the
  text is not JSON).  This abstracts exactly the `json.loads` /
  unicode-escape normalization step of `model_validate_json`; everything
  from the decoded value onward is embedded faithfully.
* `Task`, `TaskBreakdown` and the validators follow src/models.py.
* `TaskQueue` follows src/core/task_queue.py.
* The agent (message history, state, tool execution, response
  generation) follows src/core/agent.py and src/tools.py; the backend is
  modelled as a scripted stream of responses consumed in call order, and
  tool effects (filesystem, approval prompt) as an oracle function.
* The workflow engine follows src/workflow.py; its unbounded loops are
  driven by an explicit fuel parameter (`none` = fuel exhausted).
-/

namespace HiveMind

/-- Decoded JSON values (the output of `json.loads` on a response). -/
inductive Json where
  | null
  | bool (b : Bool)
  | num (n : Int)
  | str (s : String)
  | arr (elems : List Json)
  | obj (fields : List (String × Json))
deriving Inhabited

/-- Field lookup in a JSON object; `none` for absent fields or non-objects. -/
def Json.getField : Json → String → Option Json
  | .obj fields, k => (fields.find? (fun p => p.1 == k)).map Prod.snd
  | _, _ => none

/-- The string carried by a JSON string value. -/
def Json.asStr : Json → Option String
  | .str s => some s
  | _ => none

/-- The element list of a JSON array value. -/
def Json.asArr : Json → Option (List Json)
  | .arr xs => some xs
  | _ => none

/-- The field list of a JSON object value. -/
def Json.asObj : Json → Option (List (String × Json))
  | .obj fs => some fs
  | _ => none

/-- A raw backend response: the raw text (kept verbatim in message history)
and the decoded JSON value (`none` when the text does not decode). -/
structure Raw where
  text : String
  json : Option Json
deriving Inhabited

/-- Python `value.replace(backslash, slash)`: with a one-character pattern and
replacement this is exactly a per-character map. -/
def normSlashes (s : String) : String :=
  String.mk (s.data.map fun c => if c = '\\' then '/' else c)

/-- The runtime task value (src/models.py tagged union `ToolTask` /
`AgentTask`, plus the `completion`-shaped tasks src/workflow.py dispatches on
and src/core/system_prompts.py's response schema describes). -/
inductive Task where
  | tool (title description owner_agent tool_name : String)
      (tool_params : List (String × Json))
  | agent (title description owner_agent agent_name instructions : String)
  | completion (title description owner_agent result : String)
deriving Inhabited

/-- The `task_type` discriminator attribute. -/
def Task.task_type : Task → String
  | .tool .. => "tool"
  | .agent .. => "agent"
  | .completion .. => "completion"

/-- The `title` attribute. -/
def Task.title : Task → String
  | .tool t _ _ _ _ => t
  | .agent t _ _ _ _ => t
  | .completion t _ _ _ => t

/-- The `description` attribute. -/
def Task.description : Task → String
  | .tool _ d _ _ _ => d
  | .agent _ d _ _ _ => d
  | .completion _ d _ _ => d

/-- The `owner_agent` attribute. -/
def Task.owner_agent : Task → String
  | .tool _ _ o _ _ => o
  | .agent _ _ o _ _ => o
  | .completion _ _ o _ => o

/-- Assignment `task.owner_agent = name` (src/workflow.py line 50). -/
def Task.setOwner (name : String) : Task → Task
  | .tool t d _ n p => .tool t d name n p
  | .agent t d _ a i => .agent t d name a i
  | .completion t d _ r => .completion t d name r

/-- The `tool_name` attribute (only read under a `task_type == "tool"` guard). -/
def Task.tool_name : Task → String
  | .tool _ _ _ n _ => n
  | _ => ""

/-- The `tool_params` attribute (only read under a `task_type == "tool"` guard). -/
def Task.tool_params : Task → List (String × Json)
  | .tool _ _ _ _ p => p
  | _ => []

/-- The `agent_name` attribute (only read under a `task_type == "agent"` guard). -/
def Task.agent_name : Task → String
  | .agent _ _ _ a _ => a
  | _ => ""

/-- The `instructions` attribute (only read under a `task_type == "agent"` guard). -/
def Task.instructions : Task → String
  | .agent _ _ _ _ i => i
  | _ => ""

/-- `hasattr(task, "result")` probing followed by the attribute read: only
completion-shaped tasks carry a `result` attribute. -/
def Task.result : Task → Option String
  | .completion _ _ _ r => some r
  | _ => none

/-- Parser output (src/models.py `TaskBreakdown`): an activity label and the
validated task list. -/
structure TaskBreakdown where
  activity : String
  tasks : List Task
deriving Inhabited

/-- Normalization applied by the `tool_params` field validator of
src/models.py `ToolTask.normalize_paths`: every string value has its
backslashes replaced by forward slashes (the replace is a no-op when the
value has no backslash, so the `contains` guard is absorbed). -/
def normParamValue : Json → Json
  | .str s => .str (normSlashes s)
  | v => v

/-- Validation of one element against src/models.py `ToolTask`:
`title` (min_length 3), `description` (min_length 10), `task_type` a literal
`"tool"` (with default `"tool"` when absent), `owner_agent` defaulting to
`""`, required `tool_name`, `tool_params` defaulting to `{}` with path
normalization. Extra fields are ignored (pydantic default). -/
def parseToolTask (j : Json) : Option Task := do
  let _ ← j.asObj
  let title ← (j.getField "title").bind Json.asStr
  guard (3 ≤ title.length)
  let descr ← (j.getField "description").bind Json.asStr
  guard (10 ≤ descr.length)
  let tt ← match j.getField "task_type" with
    | none => some "tool"
    | some v => v.asStr
  guard (tt = "tool")
  let owner ← match j.getField "owner_agent" with
    | none => some ""
    | some v => v.asStr
  let tool_name ← (j.getField "tool_name").bind Json.asStr
  let params ← match j.getField "tool_params" with
    | none => some []
    | some v => v.asObj
  return .tool title descr owner tool_name
    (params.map fun p => (p.1, normParamValue p.2))

/-- Validation of one element against src/models.py `AgentTask`:
`title` (min_length 3), `description` (min_length 10), `task_type` a literal
`"agent"` (default `"agent"`), `owner_agent` defaulting to `""`, required
`agent_name`, required `instructions` (min_length 20). -/
def parseAgentTask (j : Json) : Option Task := do
  let _ ← j.asObj
  let title ← (j.getField "title").bind Json.asStr
  guard (3 ≤ title.length)
  let descr ← (j.getField "description").bind Json.asStr
  guard (10 ≤ descr.length)
  let tt ← match j.getField "task_type" with
    | none => some "agent"
    | some v => v.asStr
  guard (tt = "agent")
  let owner ← match j.getField "owner_agent" with
    | none => some ""
    | some v => v.asStr
  let agent_name ← (j.getField "agent_name").bind Json.asStr
  let instructions ← (j.getField "instructions").bind Json.asStr
  guard (20 ≤ instructions.length)
  return .agent title descr owner agent_name instructions

/-- One element of `tasks` against `Union[ToolTask, AgentTask]`
(src/models.py `TaskBreakdown.tasks`): the union is discriminated by the
`task_type` literal, so at most one variant can validate. -/
def parseTaskItem (j : Json) : Option Task :=
  (parseToolTask j).orElse fun _ => parseAgentTask j

/-- src/models.py `TaskBreakdown` validation over a decoded JSON value:
object with `activity` (string, min_length 5) and `tasks` (array,
min_items 1, every element a `ToolTask` or `AgentTask`). -/
def TaskBreakdown.model_validate (j : Json) : Option TaskBreakdown := do
  let _ ← j.asObj
  let activity ← (j.getField "activity").bind Json.asStr
  guard (5 ≤ activity.length)
  let tasksJson ← (j.getField "tasks").bind Json.asArr
  let tasks ← tasksJson.mapM parseTaskItem
  guard (¬ tasks.isEmpty)
  return ⟨activity, tasks⟩

/-- `TaskBreakdown.model_validate_json` on a raw response: JSON-decode the
(escape-normalized) text, then validate; any decode failure is a parse
failure. -/
def TaskBreakdown.model_validate_json (r : Raw) : Option TaskBreakdown :=
  r.json.bind TaskBreakdown.model_validate

/-- Modelled from the spec: src/core/models.py (imported as `.models` by
src/core/task_queue.py) is absent from the sources; its `TaskBreakdown`
validator is modelled from spec §3/§6 (closed three-variant set) with the
field sets and minimum lengths given by the `response_schema` of
src/core/system_prompts.py: the completion variant requires `title`
(min 3), `description` (min 10), `task_type = "completion"` and `result`
(min 10). -/
def coreParseCompletionTask (j : Json) : Option Task := do
  let _ ← j.asObj
  let title ← (j.getField "title").bind Json.asStr
  guard (3 ≤ title.length)
  let descr ← (j.getField "description").bind Json.asStr
  guard (10 ≤ descr.length)
  let tt ← (j.getField "task_type").bind Json.asStr
  guard (tt = "completion")
  let owner ← match j.getField "owner_agent" with
    | none => some ""
    | some v => v.asStr
  let result ← (j.getField "result").bind Json.asStr
  guard (10 ≤ result.length)
  return .completion title descr owner result

/-- Modelled from the spec: tool variant of the missing src/core/models.py,
per spec §3 and the `response_schema` of src/core/system_prompts.py
(required `title`, `description`, `task_type = "tool"`, `tool_name`,
`tool_params`; string parameter values path-normalized per §3). -/
def coreParseToolTask (j : Json) : Option Task := do
  let _ ← j.asObj
  let title ← (j.getField "title").bind Json.asStr
  guard (3 ≤ title.length)
  let descr ← (j.getField "description").bind Json.asStr
  guard (10 ≤ descr.length)
  let tt ← (j.getField "task_type").bind Json.asStr
  guard (tt = "tool")
  let owner ← match j.getField "owner_agent" with
    | none => some ""
    | some v => v.asStr
  let tool_name ← (j.getField "tool_name").bind Json.asStr
  let params ← (j.getField "tool_params").bind Json.asObj
  return .tool title descr owner tool_name
    (params.map fun p => (p.1, normParamValue p.2))

/-- Modelled from the spec: agent variant of the missing src/core/models.py,
per spec §3 and the `response_schema` of src/core/system_prompts.py
(required `title`, `description`, `task_type = "agent"`, `agent_name`,
`instructions` with min length 20). -/
def coreParseAgentTask (j : Json) : Option Task := do
  let _ ← j.asObj
  let title ← (j.getField "title").bind Json.asStr
  guard (3 ≤ title.length)
  let descr ← (j.getField "description").bind Json.asStr
  guard (10 ≤ descr.length)
  let tt ← (j.getField "task_type").bind Json.asStr
  guard (tt = "agent")
  let owner ← match j.getField "owner_agent" with
    | none => some ""
    | some v => v.asStr
  let agent_name ← (j.getField "agent_name").bind Json.asStr
  let instructions ← (j.getField "instructions").bind Json.asStr
  guard (20 ≤ instructions.length)
  return .agent title descr owner agent_name instructions

/-- Modelled from the spec: one `tasks` element of the missing
src/core/models.py, discriminated over the closed set
`tool` / `agent` / `completion` (spec §3, §6). -/
def coreParseTaskItem (j : Json) : Option Task :=
  ((coreParseToolTask j).orElse fun _ => coreParseAgentTask j).orElse
    fun _ => coreParseCompletionTask j

/-- Modelled from the spec: `TaskBreakdown` validation of the missing
src/core/models.py — object with `activity` (string, min length 5 per the
in-source response schema) and non-empty `tasks`, each element one of the
three closed variants. -/
def coreModelValidate (j : Json) : Option TaskBreakdown := do
  let _ ← j.asObj
  let activity ← (j.getField "activity").bind Json.asStr
  guard (5 ≤ activity.length)
  let tasksJson ← (j.getField "tasks").bind Json.asArr
  let tasks ← tasksJson.mapM coreParseTaskItem
  guard (¬ tasks.isEmpty)
  return ⟨activity, tasks⟩

/-- Modelled from the spec: `model_validate_json` of the missing
src/core/models.py on a raw response. -/
def coreModelValidateJson (r : Raw) : Option TaskBreakdown :=
  r.json.bind coreModelValidate

/-- src/core/task_queue.py `TaskQueue`: FIFO pending deque, a single
current-task slot and the append-only completed history. -/
structure TaskQueue where
  queue : List Task
  current_task : Option Task
  completed_tasks : List Task
deriving Inhabited

/-- `TaskQueue()` constructor. -/
def TaskQueue.empty : TaskQueue := ⟨[], none, []⟩

/-- `add_tasks`: append each task of the batch to `pending` in order. -/
def TaskQueue.add_tasks (q : TaskQueue) (tasks : List Task) : TaskQueue :=
  { q with queue := q.queue ++ tasks }

/-- `add_task`: append a single task. -/
def TaskQueue.add_task (q : TaskQueue) (t : Task) : TaskQueue :=
  { q with queue := q.queue ++ [t] }

/-- `get_next_task`: `None` on an empty deque (leaving `current_task`
untouched); otherwise pop the front element and record it as current. -/
def TaskQueue.get_next_task (q : TaskQueue) : Option Task × TaskQueue :=
  match q.queue with
  | [] => (none, q)
  | t :: rest => (some t, { q with queue := rest, current_task := some t })

/-- `complete_current_task`: move `current_task` (when set) to the end of
`completed_tasks`; a no-op when no task is current. -/
def TaskQueue.complete_current_task (q : TaskQueue) : TaskQueue :=
  match q.current_task with
  | none => q
  | some t =>
      { q with current_task := none, completed_tasks := q.completed_tasks ++ [t] }

/-- `has_pending_tasks`. -/
def TaskQueue.has_pending_tasks (q : TaskQueue) : Bool :=
  ¬ q.queue.isEmpty

/-- src/shared_types.py `AgentState`. -/
inductive AgentState where
  | idle
  | thinking
  | responding
  | executing_task
  | waiting_for_agent
  | waiting_for_approval
deriving DecidableEq, Inhabited

/-- src/models.py `Message`. -/
structure Message where
  role : String
  content : String
  name : String
deriving Inhabited

/-- Mutable per-agent runtime state (src/core/agent.py `Agent.__init__`):
message history, state and the never-assigned `current_task` slot. -/
structure AgentRT where
  messages : List Message
  state : AgentState
  current_task : Option Task
deriving Inhabited

/-- The configuration data of src/core/agent.py `AgentConfig` that the
engine reads: the name, the generated system prompt and the names of the
agent objects in `agent_objects`. -/
structure AgentConfig where
  name : String
  system_prompt : String
  subordinates : List String
deriving Inhabited

/-- Static environment: the agent configurations and the tool-execution
oracle standing for the external effects of a registered tool run
(filesystem access and the interactive approval gate), which always
produce a result string. -/
structure Env where
  configs : List AgentConfig
  toolRun : String → List (String × Json) → String

/-- Configuration lookup by agent name. -/
def Env.config (env : Env) (n : String) : AgentConfig :=
  (env.configs.find? (fun c => c.name == n)).getD ⟨n, "", []⟩

/-- Engine-wide mutable state: the heap of agent objects keyed by name
(every agent starts fresh with an empty history), the scripted backend
response stream (consumed in call order across all agents) and the number
of backend generation calls made so far. -/
structure EngState where
  agents : String → AgentRT
  stream : List Raw
  genCount : Nat

instance : Inhabited EngState := ⟨⟨fun _ => default, [], 0⟩⟩

/-- Read an agent object from the heap. -/
def EngState.getAgent (st : EngState) (n : String) : AgentRT :=
  st.agents n

/-- Write an agent object back to the heap. -/
def EngState.setAgent (st : EngState) (n : String) (a : AgentRT) : EngState :=
  { st with agents := fun m => if m == n then a else st.agents m }

/-- `agent.state = s` assignment. -/
def EngState.setAgentState (st : EngState) (n : String) (s : AgentState) : EngState :=
  st.setAgent n { st.getAgent n with state := s }

/-- One backend call: pop the next scripted response (an empty response
when the script is exhausted, which no scenario in this file reaches) and
count the call. -/
def EngState.nextResponse (st : EngState) : Raw × EngState :=
  (st.stream.headD ⟨"", none⟩,
   { st with stream := st.stream.tail, genCount := st.genCount + 1 })

/-- One line of the completed-tasks summary built by
src/core/agent.py `Agent.generate_response` (the `Result:` line appears
only when the task has a truthy `result` attribute). -/
def completedTaskLine (t : Task) : String :=
  "- " ++ t.title ++ ":\n  Description: " ++ t.description ++ "\n" ++
    (match t.result with
     | some r => if r = "" then "" else "  Result: " ++ r ++ "\n"
     | none => "")

/-- The completed-tasks summary message content. -/
def completedTasksInfo (tasks : List Task) : String :=
  "=== Previously Completed Tasks ===\n" ++
    String.join (tasks.map completedTaskLine) ++
    "=== End Completed Tasks ===\n"

/-- src/core/agent.py `Agent.generate_response`: set state to thinking, seed
the system prompt on the first call, append the completed-tasks summary
when the queue has history, clear the queue's pending list, append the user
prompt, call the backend, append the assistant response, and return it. -/
def Agent.generate_response (env : Env) (name prompt : String) (q : TaskQueue)
    (st : EngState) : Raw × TaskQueue × EngState :=
  let a := st.getAgent name
  let a := { a with state := AgentState.thinking }
  let a := if a.messages.isEmpty then
      { a with messages :=
          a.messages ++ [⟨"system", (env.config name).system_prompt, name⟩] }
    else a
  let a := if q.completed_tasks.isEmpty then a
    else { a with messages :=
        a.messages ++ [⟨"system", completedTasksInfo q.completed_tasks, name⟩] }
  let q2 : TaskQueue := { q with queue := [] }
  let a := { a with messages := a.messages ++ [⟨"user", prompt, name⟩] }
  let pr := (st.setAgent name a).nextResponse
  let resp := pr.1
  let st2 := pr.2
  let a2 := st2.getAgent name
  let st3 := st2.setAgent name
    { a2 with messages := a2.messages ++ [⟨"assistant", resp.text, name⟩] }
  (resp, q2, st3)

/-- Python exceptions the embedded code can raise. -/
inductive PyExc where
  | valueError (msg : String)
  | nameError (msg : String)
  | attributeError
deriving DecidableEq, Inhabited

/-- The tool names registered by src/tools.py
`ToolRegistry._register_default_tools` (every agent builds the same
default registry). -/
def defaultToolNames : List String := ["ls", "cd", "read_file"]

/-- src/tools.py `ToolRegistry.execute_tool`: `get_tool` raises a
`ValueError` for an unregistered name; a registered tool runs and returns
its text (tool-internal failures are already encoded as text by the tool
classes, so the run itself never raises). -/
def ToolRegistry.execute_tool (env : Env) (name : String)
    (params : List (String × Json)) : Except PyExc String :=
  if defaultToolNames.contains name then .ok (env.toolRun name params)
  else .error (.valueError ("Tool " ++ name ++ " not found"))

/-- src/core/agent.py `Agent.execute_tool`. The parameter mapping is a dict,
so the string-extraction branch is skipped and the body delegates to the
registry. When the registry raises (unknown tool), Python evaluates the
first handler clause `except json.JSONDecodeError` — but the module never
imports `json`, so that evaluation itself raises `NameError`, which
escapes `execute_tool` in place of the intended error string. -/
def Agent.execute_tool (env : Env) (tool_name : String)
    (tool_params : List (String × Json)) : Except PyExc String :=
  match ToolRegistry.execute_tool env tool_name tool_params with
  | .ok s => .ok s
  | .error _ => .error (.nameError "name json is not defined")

/-- src/core/agent.py `Agent.process_tool_result`: append the formatted
tool result to the agent's history (the task-completion block is guarded
by `self.current_task`, which nothing ever assigns). -/
def Agent.process_tool_result (st : EngState) (name tool_name result : String) :
    EngState :=
  let a := st.getAgent name
  let base := "=== Tool Execution Result ===\nTool: " ++ tool_name ++
    "\nResult:\n" ++ result ++ "\n=== End Result ===\n"
  let formatted := match a.current_task with
    | some t => base ++ "\n=== Task Completion ===\nTask: " ++ t.title ++
        "\nDescription: " ++ t.description ++ "\nResult: " ++ result ++
        "\n=== End Task Completion ==="
    | none => base
  st.setAgent name { a with messages := a.messages ++ [⟨"system", formatted, name⟩] }

/-- src/core/agent.py `Agent.process_subordinate_agent_result`: append the
formatted subordinate result note to the agent's history. -/
def Agent.process_subordinate_agent_result (st : EngState)
    (name agent_name result : String) : EngState :=
  let a := st.getAgent name
  let base := "=== Agent Execution Result ===\nTool: " ++ agent_name ++
    "\nResult:\n" ++ result ++ "\n=== End Result ===\n"
  let formatted := match a.current_task with
    | some t => base ++ "\n=== Task Completion ===\nTask: " ++ t.title ++
        "\nDescription: " ++ t.description ++ "\nResult: " ++ result ++
        "\n=== End Task Completion ==="
    | none => base
  st.setAgent name { a with messages := a.messages ++ [⟨"system", formatted, name⟩] }

/-- src/core/task_queue.py `TaskQueue.MAX_RETRY_ATTEMPTS`. -/
def MAX_RETRY_ATTEMPTS : Nat := 3

/-- The correction re-prompt of src/core/task_queue.py
`process_follow_up_response`. -/
def followUpRetryPrompt : String :=
  "Previous response could not be parsed. Please try again with a valid JSON response."

/-- The retry loop body of src/core/task_queue.py
`process_follow_up_response`, recursing on the remaining attempt count
(`remaining = MAX_RETRY_ATTEMPTS - retry_count`): parse the response; on
success enqueue the new tasks and return; on failure, when attempts remain,
re-prompt the agent with the correction instruction through
`generate_response` (which also clears the queue's pending list) and retry
on the new response; at the bound, log and return. -/
def process_follow_up_go (env : Env) (agentName : String) :
    Nat → Raw → TaskQueue → EngState → TaskQueue × EngState
  | 0, _, q, st => (q, st)
  | r + 1, response, q, st =>
      match coreModelValidateJson response with
      | some tb => (q.add_tasks tb.tasks, st)
      | none =>
          if r = 0 then (q, st)
          else
            let g := Agent.generate_response env agentName followUpRetryPrompt q st
            process_follow_up_go env agentName r g.1 g.2.1 g.2.2

/-- src/core/task_queue.py `TaskQueue.process_follow_up_response`. -/
def TaskQueue.process_follow_up_response (env : Env) (q : TaskQueue)
    (response : Raw) (agentName : String) (st : EngState) : TaskQueue × EngState :=
  process_follow_up_go env agentName MAX_RETRY_ATTEMPTS response q st

/-- A normal engine return: the queue and engine state. -/
abbrev WfState := TaskQueue × EngState

/-- Outcome of one engine routine: either a propagating Python exception
(with the queue and engine state as mutated up to the raise) or a normal
return. -/
abbrev WfStep := Except (PyExc × TaskQueue × EngState) WfState

/-- src/workflow.py `Workflow._execute_tool_task`: set state, execute the
tool (a raised exception propagates with the state so far), record the
result in history, mark the task complete before the follow-up, generate
the follow-up response and process it through the queue's follow-up
mechanism. -/
def Workflow.execute_tool_task (env : Env) (primary : String) (task : Task)
    (q : TaskQueue) (st : EngState) : WfStep :=
  let st := st.setAgentState primary .executing_task
  match Agent.execute_tool env task.tool_name task.tool_params with
  | .error e => .error (e, q, st)
  | .ok result =>
      let st := Agent.process_tool_result st primary task.tool_name result
      let q := q.complete_current_task
      let st := st.setAgentState primary .thinking
      let g := Agent.generate_response env primary
        ("Process the results of " ++ task.tool_name ++ " execution") q st
      let out := g.2.1.process_follow_up_response env g.1 primary g.2.2
      .ok out

/-- src/workflow.py `MAX_RETRIES` of `Workflow.process_queue`. -/
def Workflow.MAX_RETRIES : Nat := 3

/-- The initial-plan admission step of src/workflow.py
`Workflow.process_queue` (lines 49-52): set each parsed task's
`owner_agent` to the primary agent's name, then batch-enqueue. -/
def Workflow.admitInitialTasks (primary : String) (tb : TaskBreakdown)
    (q : TaskQueue) : TaskQueue :=
  q.add_tasks (tb.tasks.map (Task.setOwner primary))

/-- The engine routines of src/workflow.py as one fuel-indexed step
function (so that recursion is structural on the fuel and closed runs
evaluate); each `Call` constructor is one routine. -/
inductive Call where
  | process_queue (primary initial_prompt : String) (q : TaskQueue) (st : EngState)
  | pq_retry (remaining : Nat) (primary initial_prompt : String)
      (q : TaskQueue) (st : EngState)
  | drain (primary : String) (q : TaskQueue) (st : EngState)
  | process_next_task (primary : String) (q : TaskQueue) (st : EngState)
  | execute_agent_task (primary : String) (task : Task) (q : TaskQueue) (st : EngState)

/-- The recursive engine of src/workflow.py. `none` means the fuel ran
out (a model artifact: the source's loops and delegation recursion are
unbounded). Branches:

* `process_queue` (lines 24-68): normalize the initial prompt's path
  separators and enter the bounded parse-retry loop.
* `pq_retry` (lines 37-68), recursing on the remaining attempt count
  (`remaining = MAX_RETRIES - retry_count`): set the agent thinking,
  generate a response, parse it with src/models.py `TaskBreakdown`; on
  success admit the tasks with owner assignment and drain the queue
  (an exception escaping the drain is caught by the same `except` and
  counts as a failed attempt); on parse failure retry; after `MAX_RETRIES`
  failures report and return.
* `drain` (lines 56-57): the `while has_pending or current` loop.
* `process_next_task` (lines 70-92): pop the next task unless one is
  current (`None` here would raise when its attributes are read),
  dispatch on `task_type` — `"tool"`, `"agent"`, `"completion"` (report
  and clear all remaining pending tasks), any other tag falls through —
  then `complete_current_task` and set the agent idle.
* `execute_agent_task` (lines 131-184): resolve the named subordinate
  among the delegator's `agent_objects` (a miss just returns), set the
  delegator waiting, run the subordinate workflow on a brand-new queue,
  and if its last completed task has a truthy `result` attribute, record
  the subordinate-result note, mark the delegating task complete and run a
  follow-up generate/parse/enqueue cycle; otherwise return without a
  follow-up. -/
def step (env : Env) : Nat → Call → Option WfStep
  | 0, _ => none
  | fuel + 1, c =>
    match c with
    | .process_queue primary initial_prompt q st =>
        step env fuel (.pq_retry Workflow.MAX_RETRIES primary
          (normSlashes initial_prompt) q st)
    | .pq_retry remaining primary initial_prompt q st =>
        match remaining with
        | 0 => some (.ok (q, st))
        | r + 1 =>
            let st := st.setAgentState primary .thinking
            let g := Agent.generate_response env primary initial_prompt q st
            let response := g.1
            let q := g.2.1
            let st := g.2.2
            match TaskBreakdown.model_validate_json response with
            | none => step env fuel (.pq_retry r primary initial_prompt q st)
            | some tb =>
                let q := Workflow.admitInitialTasks primary tb q
                match step env fuel (.drain primary q st) with
                | none => none
                | some (.ok (q, st)) => some (.ok (q, st))
                | some (.error (_, q, st)) =>
                    step env fuel (.pq_retry r primary initial_prompt q st)
    | .drain primary q st =>
        if q.has_pending_tasks || q.current_task.isSome then
          match step env fuel (.process_next_task primary q st) with
          | none => none
          | some (.error e) => some (.error e)
          | some (.ok (q, st)) => step env fuel (.drain primary q st)
        else some (.ok (q, st))
    | .process_next_task primary q st =>
        let popped :=
          match q.current_task with
          | none => q.get_next_task
          | some t => (some t, q)
        let taskOpt := popped.1
        let q := popped.2
        match taskOpt with
        | none => some (.error (.attributeError, q, st))
        | some task =>
            let dispatched : Option WfStep :=
              if task.task_type = "tool" then
                some (Workflow.execute_tool_task env primary task q st)
              else if task.task_type = "agent" then
                step env fuel (.execute_agent_task primary task q st)
              else if task.task_type = "completion" then
                some (.ok ({ q with queue := [] }, st))
              else some (.ok (q, st))
            match dispatched with
            | none => none
            | some (.error e) => some (.error e)
            | some (.ok (q, st)) =>
                some (.ok (q.complete_current_task,
                  st.setAgentState primary AgentState.idle))
    | .execute_agent_task primary task q st =>
        if (env.config primary).subordinates.contains task.agent_name then
          let st := st.setAgentState primary .waiting_for_agent
          match step env fuel (.process_queue task.agent_name task.instructions
              TaskQueue.empty st) with
          | none => none
          | some (.error e) => some (.error e)
          | some (.ok (subQ, st)) =>
              match subQ.completed_tasks.getLast? with
              | none => some (.ok (q, st))
              | some last =>
                  match last.result with
                  | none => some (.ok (q, st))
                  | some r =>
                    if r = "" then some (.ok (q, st))
                    else
                      let st := Agent.process_subordinate_agent_result st
                        primary task.agent_name r
                      let q := q.complete_current_task
                      let st := st.setAgentState primary .thinking
                      let g := Agent.generate_response env primary
                        ("Process the results of " ++ task.agent_name ++
                          " agent execution") q st
                      let out :=
                        g.2.1.process_follow_up_response env g.1 primary g.2.2
                      some (.ok out)
        else some (.ok (q, st))

/-- src/workflow.py `Workflow.process_queue` entry point (never raises:
its `try` catches every exception of the loop body). -/
def Workflow.process_queue (env : Env) (fuel : Nat) (primary initial_prompt : String)
    (q : TaskQueue) (st : EngState) : Option WfState :=
  (step env fuel (.process_queue primary initial_prompt q st)).bind fun r =>
    match r with
    | .ok p => some p
    | .error _ => none

/-- The `while has_pending or current` drain loop of
src/workflow.py `Workflow.process_queue`. -/
def Workflow.drain (env : Env) (fuel : Nat) (primary : String) (q : TaskQueue)
    (st : EngState) : Option WfStep :=
  step env fuel (.drain primary q st)

/-- src/workflow.py `Workflow._process_next_task`. -/
def Workflow.process_next_task (env : Env) (fuel : Nat) (primary : String)
    (q : TaskQueue) (st : EngState) : Option WfStep :=
  step env fuel (.process_next_task primary q st)

/-- src/workflow.py `Workflow._execute_agent_task`. -/
def Workflow.execute_agent_task (env : Env) (fuel : Nat) (primary : String)
    (task : Task) (q : TaskQueue) (st : EngState) : Option WfStep :=
  step env fuel (.execute_agent_task primary task q st)

/-! ### Frame lemmas about the embedded operations -/

theorem getAgent_setAgent_same (st : EngState) (n : String) (a : AgentRT) :
    (st.setAgent n a).getAgent n = a := by
  simp [EngState.getAgent, EngState.setAgent]

theorem setAgent_genCount (st : EngState) (n : String) (a : AgentRT) :
    (st.setAgent n a).genCount = st.genCount := rfl

theorem setAgent_stream (st : EngState) (n : String) (a : AgentRT) :
    (st.setAgent n a).stream = st.stream := rfl

theorem setAgentState_genCount (st : EngState) (n : String) (s : AgentState) :
    (st.setAgentState n s).genCount = st.genCount := rfl

theorem setAgentState_stream (st : EngState) (n : String) (s : AgentState) :
    (st.setAgentState n s).stream = st.stream := rfl

theorem setAgentState_messages (st : EngState) (n : String) (s : AgentState) :
    ((st.setAgentState n s).getAgent n).messages = (st.getAgent n).messages := by
  simp [EngState.setAgentState, getAgent_setAgent_same]

/-- `generate_response` returns the queue with its pending list cleared and
nothing else changed. -/
theorem gen_queue (env : Env) (n p : String) (q : TaskQueue) (st : EngState) :
    (Agent.generate_response env n p q st).2.1 = { q with queue := [] } := rfl

theorem gen_genCount (env : Env) (n p : String) (q : TaskQueue) (st : EngState) :
    (Agent.generate_response env n p q st).2.2.genCount = st.genCount + 1 := rfl

theorem gen_stream (env : Env) (n p : String) (q : TaskQueue) (st : EngState) :
    (Agent.generate_response env n p q st).2.2.stream = st.stream.tail := rfl

/-- `generate_response` only appends to the calling agent's history. -/
theorem gen_messages_mono (env : Env) (n p : String) (q : TaskQueue) (st : EngState) :
    ∃ tail, ((Agent.generate_response env n p q st).2.2.getAgent n).messages =
      (st.getAgent n).messages ++ tail := by
  refine ⟨(if (st.getAgent n).messages.isEmpty then
      [⟨"system", (env.config n).system_prompt, n⟩] else []) ++
    (if q.completed_tasks.isEmpty then [] else
      [⟨"system", completedTasksInfo q.completed_tasks, n⟩]) ++
    [⟨"user", p, n⟩, ⟨"assistant", (st.stream.headD ⟨"", none⟩).text, n⟩], ?_⟩
  unfold Agent.generate_response
  simp only [EngState.nextResponse, EngState.getAgent, EngState.setAgent]
  by_cases h1 : (st.agents n).messages.isEmpty <;>
    by_cases h2 : q.completed_tasks.isEmpty <;>
      simp_all [List.headD, EngState.getAgent]

theorem psar_genCount (st : EngState) (n an r : String) :
    (Agent.process_subordinate_agent_result st n an r).genCount = st.genCount := rfl

/-- `process_subordinate_agent_result` appends exactly one system note to
the agent's history, and the subordinate result string occurs inside the
note's content. -/
theorem psar_note (st : EngState) (n an r : String) :
    ∃ m, ((Agent.process_subordinate_agent_result st n an r).getAgent n).messages =
        (st.getAgent n).messages ++ [m] ∧
      ∃ pre post, m.content = pre ++ r ++ post := by
  unfold Agent.process_subordinate_agent_result
  simp only [getAgent_setAgent_same]
  refine ⟨_, rfl, ?_⟩
  rcases hct : (st.getAgent n).current_task with _ | t <;> simp only [hct]
  · exact ⟨"=== Agent Execution Result ===\nTool: " ++ an ++ "\nResult:\n",
      "\n=== End Result ===\n", by simp [String.append_assoc]⟩
  · exact ⟨"=== Agent Execution Result ===\nTool: " ++ an ++ "\nResult:\n",
      "\n=== End Result ===\n\n=== Task Completion ===\nTask: " ++
        (t.title ++ ("\nDescription: " ++ (t.description ++
          ("\nResult: " ++ (r ++ "\n=== End Task Completion ==="))))),
      by simp [String.append_assoc]⟩

/-- The follow-up retry loop never touches `current_task` or
`completed_tasks`; only the pending list is affected. -/
theorem pfg_queue_frame (env : Env) (aname : String) :
    ∀ (r : Nat) (resp : Raw) (q : TaskQueue) (st : EngState),
      (process_follow_up_go env aname r resp q st).1.completed_tasks =
          q.completed_tasks ∧
        (process_follow_up_go env aname r resp q st).1.current_task = q.current_task
  | 0, _, _, _ => ⟨rfl, rfl⟩
  | r + 1, resp, q, st => by
      simp only [process_follow_up_go]
      cases h : coreModelValidateJson resp with
      | some tb => exact ⟨rfl, rfl⟩
      | none =>
          by_cases hr : r = 0
          · simp [hr]
          · simp only [hr, if_false]
            exact pfg_queue_frame env aname r _ _ _

/-- The follow-up retry loop never loses generation calls. -/
theorem pfg_genCount_mono (env : Env) (aname : String) :
    ∀ (r : Nat) (resp : Raw) (q : TaskQueue) (st : EngState),
      st.genCount ≤ (process_follow_up_go env aname r resp q st).2.genCount
  | 0, _, _, _ => le_rfl
  | r + 1, resp, q, st => by
      simp only [process_follow_up_go]
      cases h : coreModelValidateJson resp with
      | some tb => exact le_rfl
      | none =>
          by_cases hr : r = 0
          · simp [hr]
          · simp only [hr, if_false]
            calc st.genCount
                ≤ st.genCount + 1 := Nat.le_succ _
              _ = (Agent.generate_response env aname followUpRetryPrompt q st).2.2.genCount :=
                  (gen_genCount env aname followUpRetryPrompt q st).symm
              _ ≤ _ := pfg_genCount_mono env aname r _ _ _

/-- The follow-up retry loop only appends to the agent's history. -/
theorem pfg_messages_mono (env : Env) (aname : String) :
    ∀ (r : Nat) (resp : Raw) (q : TaskQueue) (st : EngState),
      ∃ tail, ((process_follow_up_go env aname r resp q st).2.getAgent aname).messages =
        (st.getAgent aname).messages ++ tail
  | 0, _, _, _ => ⟨[], by simp [process_follow_up_go]⟩
  | r + 1, resp, q, st => by
      simp only [process_follow_up_go]
      cases h : coreModelValidateJson resp with
      | some tb => exact ⟨[], by simp⟩
      | none =>
          by_cases hr : r = 0
          · simp [hr]
          · simp only [hr, if_false]
            obtain ⟨t1, h1⟩ := gen_messages_mono env aname followUpRetryPrompt q st
            obtain ⟨t2, h2⟩ := pfg_messages_mono env aname r
              (Agent.generate_response env aname followUpRetryPrompt q st).1
              (Agent.generate_response env aname followUpRetryPrompt q st).2.1
              (Agent.generate_response env aname followUpRetryPrompt q st).2.2
            exact ⟨t1 ++ t2, by rw [h2, h1, List.append_assoc]⟩

/-! ### Queue-level dequeue/complete cycles (for the FIFO property) -/

/-- One dequeue-then-complete cycle: pop the front task into `current`,
then move it to `completed`. -/
def dequeueComplete (q : TaskQueue) : TaskQueue :=
  (q.get_next_task).2.complete_current_task

/-- `n` repeated dequeue-then-complete cycles. -/
def drainN : Nat → TaskQueue → TaskQueue
  | 0, q => q
  | n + 1, q => drainN n (dequeueComplete q)

theorem drainN_fifo (l : List Task) :
    ∀ c, drainN l.length ⟨l, none, c⟩ = ⟨[], none, c ++ l⟩ := by
  induction l with
  | nil => intro c; simp [drainN]
  | cons t rest ih =>
      intro c
      rw [List.length_cons]
      show drainN rest.length (dequeueComplete ⟨t :: rest, none, c⟩) = _
      have hd : dequeueComplete ⟨t :: rest, none, c⟩ = ⟨rest, none, c ++ [t]⟩ := rfl
      rw [hd, ih]
      simp

/-! ### Concrete scenario fixtures -/

/-- A planner agent with no subordinates; every registered tool run
produces the same output text. -/
def envBoss : Env := ⟨[⟨"boss", "You are the planner agent.", []⟩],
  fun _ _ => "tool output text"⟩

/-- A fresh engine state for `envBoss` with the given backend script. -/
def stBoss (script : List Raw) : EngState :=
  ⟨fun _ => ⟨[], .idle, none⟩, script, 0⟩

/-- A scripted response that is not JSON at all. -/
def rawGarbage (t : String) : Raw := ⟨t, none⟩

/-- A scripted response that is JSON but fails structural validation. -/
def badJsonRaw : Raw := ⟨"a bare JSON string", some (Json.str "a bare JSON string")⟩

/-- A sentinel scripted response used to show that no further generation
call consumes the stream. -/
def sentinelRaw : Raw := ⟨"sentinel", none⟩

/-- A completion-typed `tasks` element with every field the spec requires. -/
def completionElemJson : Json := .obj [
  ("title", .str "Workflow Complete"),
  ("description", .str "All analysis steps finished"),
  ("task_type", .str "completion"),
  ("result", .str "Analysis finished successfully")]

/-- A tool-typed `tasks` element. -/
def toolElemJson : Json := .obj [
  ("title", .str "List directory contents"),
  ("description", .str "List all files in the current directory"),
  ("task_type", .str "tool"),
  ("tool_name", .str "ls")]

/-- An agent-typed `tasks` element. -/
def agentElemJson : Json := .obj [
  ("title", .str "Analyze files"),
  ("description", .str "Analyze the content of all text files"),
  ("task_type", .str "agent"),
  ("agent_name", .str "file_analyzer"),
  ("instructions", .str "Read and analyze all text files in the directory")]

/-- A response whose `tasks` array holds a tool element and a
completion element. -/
def rawCompletionPlan : Raw := ⟨"a plan with a completion task", some (.obj [
  ("activity", .str "Directory Analysis"),
  ("tasks", .arr [toolElemJson, completionElemJson])])⟩

/-- A response whose `tasks` array holds a tool element and an
agent element. -/
def rawToolAgentPlan : Raw := ⟨"a plan with tool and agent tasks", some (.obj [
  ("activity", .str "Directory Analysis"),
  ("tasks", .arr [toolElemJson, agentElemJson])])⟩

/-! ### Claims -/

/-- C1: the claim says the Response Parser accepts all three task variants
of the closed set, in particular a completion-typed element with a result
field. The parser of src/models.py declares
`tasks : List[Union[ToolTask, AgentTask]]` with `task_type` literals
`"tool"` and `"agent"` only, so a well-formed completion element is
rejected (first conjunct), while the same response shape with tool and
agent elements parses with length and tags preserved (second conjunct).
This contradicts src/workflow.py's own `"completion"` dispatch branch and
the completion variant demanded by src/core/system_prompts.py's response
schema: a bug in the code, not in the claim. -/
theorem completion_variant_rejected :
    TaskBreakdown.model_validate_json rawCompletionPlan = none ∧
    (TaskBreakdown.model_validate_json rawToolAgentPlan).map
        (fun tb => tb.tasks.map Task.task_type) = some ["tool", "agent"] :=
  ⟨rfl, rfl⟩

/-- C3: `Agent.generate_response` clears the queue's pending list before
invoking the backend, and leaves the `current_task` slot and the
completed history unchanged — for every environment, agent, prompt,
queue and engine state. -/
theorem generate_response_clears_pending (env : Env) (name prompt : String)
    (q : TaskQueue) (st : EngState) :
    (Agent.generate_response env name prompt q st).2.1.queue = [] ∧
    (Agent.generate_response env name prompt q st).2.1.current_task =
      q.current_task ∧
    (Agent.generate_response env name prompt q st).2.1.completed_tasks =
      q.completed_tasks :=
  ⟨rfl, rfl, rfl⟩

/-- C6: the claim says `Agent.execute_tool` never lets an exception cross
its boundary and surfaces an unknown tool name as an error string. In the
code, the unknown-tool `ValueError` raised by the registry makes Python
evaluate the handler clause `except json.JSONDecodeError`, and since the
module never imports `json` that evaluation raises `NameError`, which
escapes `execute_tool` (first conjunct); a registered tool returns its
result string normally (second conjunct). The code contradicts its own
error-handling intent: a bug in the code, not in the claim. -/
theorem execute_tool_unknown_tool_raises :
    Agent.execute_tool envBoss "frobnicate" [] =
      .error (.nameError "name json is not defined") ∧
    Agent.execute_tool envBoss "ls" [] = .ok "tool output text" :=
  ⟨rfl, rfl⟩

/-- C8: queue-level FIFO. Batch admission appends to `pending` preserving
insertion order, and repeatedly dequeuing (recording the front element as
current) and completing moves the tasks into `completed` in exactly the
order they were enqueued, dropping, duplicating and reordering nothing. -/
theorem task_queue_fifo (q : TaskQueue) (ts : List Task)
    (h : q.current_task = none) :
    (q.add_tasks ts).queue = q.queue ++ ts ∧
    drainN (q.queue ++ ts).length (q.add_tasks ts) =
      ⟨[], none, q.completed_tasks ++ (q.queue ++ ts)⟩ := by
  rcases q with ⟨qq, qc, qcomp⟩
  dsimp only at h ⊢
  subst h
  exact ⟨rfl, drainN_fifo _ _⟩

/-- Concrete FIFO witness: three tasks of the three runtime shapes drain
in insertion order. -/
theorem task_queue_fifo_witness :
    (TaskQueue.empty.add_tasks
        [Task.tool "Task A title" "Task A description text" "boss" "ls" [],
         Task.agent "Task B title" "Task B description text" "boss" "helper"
           "Carry out the task B work now",
         Task.completion "Task C title" "Task C description text" "boss"
           "final result"]).queue =
      [Task.tool "Task A title" "Task A description text" "boss" "ls" [],
       Task.agent "Task B title" "Task B description text" "boss" "helper"
         "Carry out the task B work now",
       Task.completion "Task C title" "Task C description text" "boss"
         "final result"] ∧
    drainN 3 (TaskQueue.empty.add_tasks
        [Task.tool "Task A title" "Task A description text" "boss" "ls" [],
         Task.agent "Task B title" "Task B description text" "boss" "helper"
           "Carry out the task B work now",
         Task.completion "Task C title" "Task C description text" "boss"
           "final result"]) =
      ⟨[], none,
        [Task.tool "Task A title" "Task A description text" "boss" "ls" [],
         Task.agent "Task B title" "Task B description text" "boss" "helper"
           "Carry out the task B work now",
         Task.completion "Task C title" "Task C description text" "boss"
           "final result"]⟩ := by
  simpa using task_queue_fifo TaskQueue.empty
    [Task.tool "Task A title" "Task A description text" "boss" "ls" [],
     Task.agent "Task B title" "Task B description text" "boss" "helper"
       "Carry out the task B work now",
     Task.completion "Task C title" "Task C description text" "boss"
       "final result"] rfl

/-- View of a drain outcome: completed-task tags, number of still-pending
tasks, leftover backend script and generation-call count. -/
def runView : Option WfStep → Option (List String × Nat × List Raw × Nat)
  | some (.ok (q, st)) =>
      some (q.completed_tasks.map Task.task_type, q.queue.length,
        st.stream, st.genCount)
  | _ => none

/-- A pre-loaded tool task. -/
def toolTaskA : Task := Task.tool "List stuff" "List the directory now" "boss" "ls" []

/-- A pre-loaded completion task. -/
def completionTaskB : Task :=
  Task.completion "Done here" "Everything is finished" "boss" "final result text"

/-- A second pre-loaded tool task. -/
def toolTaskC : Task :=
  Task.tool "List again" "List the directory again" "boss" "ls" []

/-- Three scripted non-JSON responses. -/
def stGarbage3 : EngState :=
  stBoss [rawGarbage "g1", rawGarbage "g2", rawGarbage "g3"]

/-- C2 counterexample: draining the pre-loaded queue
`[ToolTask, CompletionTask, ToolTask]` executes the tool task, whose
follow-up generation clears the pending list, discarding the completion
and the trailing tool task unexecuted: `completed` ends with the single
tool entry — one entry with tag `"tool"`, not the 2 entries (ending in the
completion) the claim requires. -/
theorem completion_short_circuit_counterexample :
    runView (Workflow.drain envBoss 20 "boss"
        ⟨[toolTaskA, completionTaskB, toolTaskC], none, []⟩ stGarbage3) =
      some (["tool"], 0, [], 3) ∧
    (["tool"] : List String).length ≠ 2 :=
  ⟨rfl, by decide⟩

/-- C2 amended: draining the pre-loaded queue
`[ToolTask, CompletionTask, ToolTask]` executes the tool task and the tool
task only; the follow-up generation clears the pending completion and
trailing tool before either can run, so `completed` ends with exactly 1
entry (plus whatever the follow-up response would admit — none here, the
responses being unparseable). The completion short-circuit itself holds
when a completion task reaches the front: draining `[CompletionTask,
ToolTask]` processes the completion, clears the remaining pending tasks
and completes with exactly the completion entry, never executing the
trailing tool task and making no generation call. -/
theorem completion_short_circuit_amended :
    runView (Workflow.drain envBoss 20 "boss"
        ⟨[toolTaskA, completionTaskB, toolTaskC], none, []⟩ stGarbage3) =
      some (["tool"], 0, [], 3) ∧
    runView (Workflow.drain envBoss 20 "boss"
        ⟨[completionTaskB, toolTaskC], none, []⟩ (stBoss [sentinelRaw])) =
      some (["completion"], 0, [sentinelRaw], 0) :=
  ⟨rfl, rfl⟩

/-- A valid plan that delegates to an agent name resolving to nothing, so
draining it makes no further generation call. -/
def ghostPlanRaw : Raw := ⟨"a plan delegating to a missing agent", some (.obj [
  ("activity", .str "Delegated analysis"),
  ("tasks", .arr [.obj [
    ("title", .str "Delegate work"),
    ("description", .str "Delegate the analysis work"),
    ("task_type", .str "agent"),
    ("agent_name", .str "ghost"),
    ("instructions", .str "Analyze all files in the target directory")]])])⟩

/-- A valid follow-up response carrying one tool task. -/
def validFollowRaw : Raw := ⟨"a follow-up with one tool task", some (.obj [
  ("activity", .str "Next steps"),
  ("tasks", .arr [.obj [
    ("title", .str "List files"),
    ("description", .str "List the directory contents"),
    ("task_type", .str "tool"),
    ("tool_name", .str "ls"),
    ("tool_params", .obj [])]])])⟩

/-- C4: the parse-retry bound, at both parse sites, for arbitrary raw
texts of the malformed responses (one not JSON at all, one JSON failing
structural validation).
Initial-plan loop: two failures then a valid plan — the run succeeds
(the plan's task is admitted and completed) after exactly 3 generation
calls, the sentinel never consumed; three failures — the run stops in the
reported-failure state (nothing admitted or completed) after exactly 3
generation calls, with no 4th call.
Follow-up loop: the first response (whose producing call is generation
call 1) fails, and the loop makes exactly 2 more calls: when the 3rd
response is valid its tasks are enqueued; when all 3 are malformed the
loop stops without a further call, the sentinel untouched. -/
theorem parse_retry_bound_three_attempts (t1 t2 : String) :
    (Workflow.process_queue envBoss 20 "boss" "Analyze the target directory"
        TaskQueue.empty
        (stBoss [rawGarbage t1, badJsonRaw, ghostPlanRaw, sentinelRaw])).map
        (fun p => (p.1.completed_tasks.map Task.task_type, p.2.genCount, p.2.stream)) =
      some (["agent"], 3, [sentinelRaw]) ∧
    (Workflow.process_queue envBoss 20 "boss" "Analyze the target directory"
        TaskQueue.empty
        (stBoss [rawGarbage t1, badJsonRaw, rawGarbage t2, sentinelRaw])).map
        (fun p => (p.1.completed_tasks, p.1.queue, p.2.genCount, p.2.stream)) =
      some ([], [], 3, [sentinelRaw]) ∧
    (let out := TaskQueue.empty.process_follow_up_response envBoss (rawGarbage t1)
        "boss" (stBoss [badJsonRaw, validFollowRaw, sentinelRaw])
     (out.1.queue.map Task.task_type, out.2.genCount, out.2.stream)) =
      (["tool"], 2, [sentinelRaw]) ∧
    (let out := TaskQueue.empty.process_follow_up_response envBoss (rawGarbage t1)
        "boss" (stBoss [badJsonRaw, rawGarbage t2, sentinelRaw])
     (out.1.queue, out.2.genCount, out.2.stream)) = ([], 2, [sentinelRaw]) :=
  ⟨rfl, rfl, rfl, rfl⟩

/-- C5 counterexample: in the initial-plan parse loop, every retry
generation re-sends the original prompt verbatim — the delegating agent's
full history after three failed attempts holds three identical user
messages, none of them the correction instruction — refuting the claim
that both parse sites re-prompt with an explicit correction
instruction. -/
theorem initial_retry_resends_original_prompt :
    (Workflow.process_queue envBoss 20 "boss" "analyze the target dir"
        TaskQueue.empty stGarbage3).map
        (fun p => (p.2.getAgent "boss").messages.map (fun m => (m.role, m.content))) =
      some [("system", "You are the planner agent."),
        ("user", "analyze the target dir"), ("assistant", "g1"),
        ("user", "analyze the target dir"), ("assistant", "g2"),
        ("user", "analyze the target dir"), ("assistant", "g3")] ∧
    ("analyze the target dir" : String) ≠ followUpRetryPrompt :=
  ⟨rfl, by decide⟩

/-- C5 amended: only the follow-up parse site re-prompts with the explicit
correction instruction ("Previous response could not be parsed. Please try
again with a valid JSON response."), routed through the same queue's
`generate_response` so the agent's history records the correction request
(first run: the history holds the correction user message and the retried
response's tasks are enqueued); the initial-plan parse site retries by
re-sending the unchanged original prompt (second run: the second user
message equals the first). -/
theorem correction_prompt_only_followup_site :
    (let out := TaskQueue.empty.process_follow_up_response envBoss
        (rawGarbage "bad raw") "boss" (stBoss [validFollowRaw, sentinelRaw])
     ((out.2.getAgent "boss").messages.map (fun m => (m.role, m.content)),
       out.1.queue.map Task.task_type)) =
      ([("system", "You are the planner agent."),
        ("user", followUpRetryPrompt),
        ("assistant", "a follow-up with one tool task")], ["tool"]) ∧
    (Workflow.process_queue envBoss 20 "boss" "analyze the target dir"
        TaskQueue.empty (stBoss [rawGarbage "g1", ghostPlanRaw, sentinelRaw])).map
        (fun p => (p.2.getAgent "boss").messages.map Message.content) =
      some ["You are the planner agent.", "analyze the target dir", "g1",
        "analyze the target dir", "a plan delegating to a missing agent"] :=
  ⟨rfl, rfl⟩

/-- C10 counterexample: a task admitted through the follow-up parse keeps
the parser's default empty `owner_agent` instead of receiving the
admitting agent's name — refuting the claim that every admission site
assigns the owner. -/
theorem follow_up_owner_not_assigned :
    (let out := TaskQueue.empty.process_follow_up_response envBoss validFollowRaw
        "boss" (stBoss [sentinelRaw])
     out.1.queue.map Task.owner_agent) = [""] ∧
    ("" : String) ≠ "boss" :=
  ⟨rfl, by decide⟩

/-- C10 amended: only the initial-plan admission assigns ownership — it
enqueues the parsed tasks with `owner_agent` set to the admitting agent's
name (first two conjuncts) — while the follow-up admission enqueues the
parsed tasks unmodified, so they keep whatever `owner_agent` the parser
produced (the default being empty); owner assignment happens at admission
and the queue operations never reassign it. -/
theorem owner_assignment_amended :
    (∀ (primary : String) (tb : TaskBreakdown) (q : TaskQueue),
      (Workflow.admitInitialTasks primary tb q).queue =
        q.queue ++ tb.tasks.map (Task.setOwner primary)) ∧
    (∀ (primary : String) (t : Task),
      (Task.setOwner primary t).owner_agent = primary) ∧
    (∀ (env : Env) (aname : String) (raw : Raw) (q : TaskQueue) (st : EngState)
        (tb : TaskBreakdown), coreModelValidateJson raw = some tb →
      q.process_follow_up_response env raw aname st = (q.add_tasks tb.tasks, st)) := by
  refine ⟨fun _ _ _ => rfl, fun primary t => by cases t <;> rfl, ?_⟩
  intro env aname raw q st tb h
  unfold TaskQueue.process_follow_up_response MAX_RETRY_ATTEMPTS
  simp [process_follow_up_go, h]

/-- Witness for the amended C10 owner-assignment claim at a concrete
follow-up response: the admitted tool task keeps its parsed empty owner. -/
theorem owner_assignment_amended_witness :
    TaskQueue.empty.process_follow_up_response envBoss validFollowRaw "boss"
        (stBoss [sentinelRaw]) =
      (TaskQueue.empty.add_tasks
        [Task.tool "List files" "List the directory contents" "" "ls" []],
       stBoss [sentinelRaw]) :=
  owner_assignment_amended.2.2 envBoss "boss" validFollowRaw TaskQueue.empty
    (stBoss [sentinelRaw])
    ⟨"Next steps", [Task.tool "List files" "List the directory contents" "" "ls" []]⟩
    rfl

/-- C9: an agent-type task naming a subordinate absent from the
delegator's known-subordinates set is skipped without raising: the step
returns normally (no exception value), the task is simply finalized with
the agent back to idle, and neither the generation counter nor the
backend stream is touched — no follow-up generation call and no
subordinate workflow run. -/
theorem unknown_subordinate_skipped (env : Env) (fuel : Nat)
    (primary t d o aname instr : String) (q : TaskQueue) (st : EngState)
    (hq : q.current_task = some (Task.agent t d o aname instr))
    (hmiss : (env.config primary).subordinates.contains aname = false) :
    Workflow.process_next_task env (fuel + 2) primary q st =
      some (.ok (⟨q.queue, none, q.completed_tasks ++ [Task.agent t d o aname instr]⟩,
        st.setAgentState primary AgentState.idle)) ∧
    (st.setAgentState primary AgentState.idle).genCount = st.genCount ∧
    (st.setAgentState primary AgentState.idle).stream = st.stream := by
  refine ⟨?_, rfl, rfl⟩
  unfold Workflow.process_next_task
  show step env (fuel + 1 + 1) (.process_next_task primary q st) = _
  simp only [step, hq, Task.task_type, Task.agent_name, Task.instructions,
    TaskQueue.complete_current_task, hmiss]
  simp [hq]

/-- Witness for C9 at a concrete queue, state and missing subordinate. -/
theorem unknown_subordinate_skipped_witness :
    Workflow.process_next_task envBoss 10 "boss"
        ⟨[], some (Task.agent "Delegate work" "Delegate the analysis work"
          "boss" "ghost" "Analyze all files in the target directory"), []⟩
        (stBoss [sentinelRaw]) =
      some (.ok (⟨[], none,
          [Task.agent "Delegate work" "Delegate the analysis work" "boss" "ghost"
            "Analyze all files in the target directory"]⟩,
        (stBoss [sentinelRaw]).setAgentState "boss" AgentState.idle)) ∧
    ((stBoss [sentinelRaw]).setAgentState "boss" AgentState.idle).genCount =
      (stBoss [sentinelRaw]).genCount ∧
    ((stBoss [sentinelRaw]).setAgentState "boss" AgentState.idle).stream =
      (stBoss [sentinelRaw]).stream :=
  unknown_subordinate_skipped envBoss 8 "boss" "Delegate work"
    "Delegate the analysis work" "boss" "ghost"
    "Analyze all files in the target directory"
    ⟨[], some (Task.agent "Delegate work" "Delegate the analysis work" "boss"
      "ghost" "Analyze all files in the target directory"), []⟩
    (stBoss [sentinelRaw]) rfl rfl

/-- `process_follow_up_response` never touches `current_task` or
`completed_tasks`. -/
theorem pfr_queue_frame (env : Env) (aname : String) (resp : Raw)
    (q : TaskQueue) (st : EngState) :
    (TaskQueue.process_follow_up_response env q resp aname st).1.completed_tasks =
        q.completed_tasks ∧
      (TaskQueue.process_follow_up_response env q resp aname st).1.current_task =
        q.current_task :=
  pfg_queue_frame env aname MAX_RETRY_ATTEMPTS resp q st

/-- `process_follow_up_response` never loses generation calls. -/
theorem pfr_genCount_mono (env : Env) (aname : String) (resp : Raw)
    (q : TaskQueue) (st : EngState) :
    st.genCount ≤
      (TaskQueue.process_follow_up_response env q resp aname st).2.genCount :=
  pfg_genCount_mono env aname MAX_RETRY_ATTEMPTS resp q st

/-- `process_follow_up_response` only appends to the agent's history. -/
theorem pfr_messages_mono (env : Env) (aname : String) (resp : Raw)
    (q : TaskQueue) (st : EngState) :
    ∃ tail, (((TaskQueue.process_follow_up_response env q resp aname
        st).2).getAgent aname).messages = (st.getAgent aname).messages ++ tail :=
  pfg_messages_mono env aname MAX_RETRY_ATTEMPTS resp q st

/-- C7: delegation round-trip. For an agent-type task whose named
subordinate exists, the engine runs the subordinate workflow on a
brand-new queue with the delegation's instructions (hypothesis `hrun`
names that nested run's outcome). First conjunct: when the subordinate's
completed list ends in a task with a truthy `result` r, the delegating
agent's history receives a subordinate-result note containing r, at least
one follow-up generation call is made, and the delegating task is marked
complete. Remaining conjuncts: when the subordinate produced no usable
completion result (no completed tasks, no `result` attribute on the last
one, or an empty result), the engine returns with the subordinate-run
state unchanged — no follow-up generation call. -/
theorem delegation_round_trip (env : Env) (fuel : Nat)
    (primary t d o aname instr : String) (q : TaskQueue) (st : EngState)
    (subQ : TaskQueue) (st1 : EngState)
    (hsub : (env.config primary).subordinates.contains aname = true)
    (hq : q.current_task = some (Task.agent t d o aname instr))
    (hrun : Workflow.process_queue env fuel aname instr TaskQueue.empty
        (st.setAgentState primary AgentState.waiting_for_agent) = some (subQ, st1)) :
    (∀ (last : Task) (r : String),
      subQ.completed_tasks.getLast? = some last →
      last.result = some r → r ≠ "" →
      ∃ q2 st2,
        Workflow.execute_agent_task env (fuel + 1) primary
            (Task.agent t d o aname instr) q st = some (.ok (q2, st2)) ∧
        (∃ m ∈ (st2.getAgent primary).messages, ∃ pre post,
            m.content = pre ++ r ++ post) ∧
        st1.genCount + 1 ≤ st2.genCount ∧
        q2.completed_tasks = q.completed_tasks ++ [Task.agent t d o aname instr] ∧
        q2.current_task = none) ∧
    (∀ (last : Task),
      subQ.completed_tasks.getLast? = some last →
      last.result = none →
      Workflow.execute_agent_task env (fuel + 1) primary
          (Task.agent t d o aname instr) q st = some (.ok (q, st1))) ∧
    (subQ.completed_tasks.getLast? = none →
      Workflow.execute_agent_task env (fuel + 1) primary
          (Task.agent t d o aname instr) q st = some (.ok (q, st1))) ∧
    (∀ (last : Task),
      subQ.completed_tasks.getLast? = some last →
      last.result = some "" →
      Workflow.execute_agent_task env (fuel + 1) primary
          (Task.agent t d o aname instr) q st = some (.ok (q, st1))) := by
  have hstep : step env fuel (.process_queue aname instr TaskQueue.empty
      (st.setAgentState primary AgentState.waiting_for_agent)) =
      some (.ok (subQ, st1)) := by
    unfold Workflow.process_queue at hrun
    rcases hs : step env fuel (.process_queue aname instr TaskQueue.empty
        (st.setAgentState primary AgentState.waiting_for_agent)) with _ | res
    · rw [hs] at hrun; simp at hrun
    · rcases res with e | p
      · rw [hs] at hrun; simp at hrun
      · rw [hs] at hrun
        simp at hrun
        rw [hrun]
  have hcc : q.complete_current_task =
      ⟨q.queue, none, q.completed_tasks ++ [Task.agent t d o aname instr]⟩ := by
    unfold TaskQueue.complete_current_task
    rw [hq]
  have key : Workflow.execute_agent_task env (fuel + 1) primary
      (Task.agent t d o aname instr) q st =
      (if (env.config primary).subordinates.contains aname then
        match step env fuel (Call.process_queue aname instr TaskQueue.empty
            (st.setAgentState primary AgentState.waiting_for_agent)) with
        | none => none
        | some (.error e) => some (.error e)
        | some (.ok (sq, s1)) =>
            match sq.completed_tasks.getLast? with
            | none => some (.ok (q, s1))
            | some last =>
                match last.result with
                | none => some (.ok (q, s1))
                | some r =>
                    if r = "" then some (.ok (q, s1))
                    else
                      let stB := (Agent.process_subordinate_agent_result s1
                        primary aname r).setAgentState primary AgentState.thinking
                      let g := Agent.generate_response env primary
                        ("Process the results of " ++ aname ++ " agent execution")
                        q.complete_current_task stB
                      some (.ok (TaskQueue.process_follow_up_response env
                        g.2.1 g.1 primary g.2.2))
      else some (.ok (q, st))) := rfl
  refine ⟨?_, ?_, ?_, ?_⟩
  · intro last r hlast hres hne
    rw [key]
    simp only [hsub, eq_self_iff_true, if_true, hstep, hlast, hres]
    rw [if_neg hne]
    set stB := (Agent.process_subordinate_agent_result st1 primary aname
      r).setAgentState primary AgentState.thinking with hstB
    set g := Agent.generate_response env primary
      ("Process the results of " ++ aname ++ " agent execution")
      q.complete_current_task stB with hgdef
    refine ⟨(TaskQueue.process_follow_up_response env g.2.1 g.1 primary g.2.2).1,
      (TaskQueue.process_follow_up_response env g.2.1 g.1 primary g.2.2).2,
      rfl, ?_, ?_, ?_, ?_⟩
    · obtain ⟨m, hmeq, pre, post, hmc⟩ := psar_note st1 primary aname r
      obtain ⟨tail1, ht1⟩ := gen_messages_mono env primary
        ("Process the results of " ++ aname ++ " agent execution")
        q.complete_current_task stB
      obtain ⟨tail2, ht2⟩ := pfr_messages_mono env primary g.1 g.2.1 g.2.2
      rw [← hgdef] at ht1
      refine ⟨m, ?_, pre, post, hmc⟩
      rw [ht2, ht1, hstB, setAgentState_messages, hmeq]
      simp
    · calc st1.genCount + 1
          = g.2.2.genCount := by
            rw [hgdef, gen_genCount, hstB, setAgentState_genCount, psar_genCount]
        _ ≤ _ := pfr_genCount_mono env primary g.1 g.2.1 g.2.2
    · rw [(pfr_queue_frame env primary g.1 g.2.1 g.2.2).1, hgdef, gen_queue]
      simp [hcc]
    · rw [(pfr_queue_frame env primary g.1 g.2.1 g.2.2).2, hgdef, gen_queue]
      simp [hcc]
  · intro last hlast hres
    rw [key]
    simp only [hsub, eq_self_iff_true, if_true, hstep, hlast, hres]
  · intro hlast
    rw [key]
    simp only [hsub, eq_self_iff_true, if_true, hstep, hlast]
  · intro last hlast hres
    rw [key]
    simp only [hsub, eq_self_iff_true, if_true, hstep, hlast, hres]

/-- A delegating boss with one subordinate helper; registered tool runs
produce a fixed listing. -/
def envDeleg : Env := ⟨[
  ⟨"boss", "You are the boss planner.", ["helper"]⟩,
  ⟨"helper", "You are the helper agent.", []⟩],
  fun _ _ => "file1.txt"⟩

/-- The helper's plan: a single ls tool task. -/
def helperPlanRaw : Raw := ⟨"helper plan", some (.obj [
  ("activity", .str "Helper activity"),
  ("tasks", .arr [toolElemJson])])⟩

/-- The helper's follow-up: a single completion task carrying a result. -/
def subCompletionRaw : Raw := ⟨"helper completion", some (.obj [
  ("activity", .str "Wrap up work"),
  ("tasks", .arr [.obj [
    ("title", .str "All done now"),
    ("description", .str "Everything has completed"),
    ("task_type", .str "completion"),
    ("result", .str "RESULT-X-1234567890")]])])⟩

/-- The delegating agent task naming the helper. -/
def delegTask : Task := Task.agent "Delegate analysis"
  "Delegate the analysis to helper" "boss" "helper"
  "Analyze every file in the target directory"

/-- Engine state before the delegation: both agents fresh; the script
covers the subordinate run (plan, then completion follow-up) and the
boss's follow-up attempts (three unparseable responses). -/
def stDeleg : EngState := ⟨fun _ => ⟨[], .idle, none⟩,
  [helperPlanRaw, subCompletionRaw, rawGarbage "bf1", rawGarbage "bf2",
    rawGarbage "bf3"], 0⟩

/-- The subordinate workflow run the delegation performs. -/
def subRunW : Option WfState :=
  Workflow.process_queue envDeleg 20 "helper"
    "Analyze every file in the target directory" TaskQueue.empty
    (stDeleg.setAgentState "boss" AgentState.waiting_for_agent)

/-- The subordinate run's final queue. -/
def subQW : TaskQueue := (subRunW.getD default).1

/-- The subordinate run's final engine state. -/
def subStW : EngState := (subRunW.getD default).2

/-- Witness for C7 at the concrete delegation scenario: the helper's own
plan resolves in a completion task with result RESULT-X-1234567890, the
boss's history receives a note containing that result, a follow-up
generation is performed and the delegating task is completed. -/
theorem delegation_round_trip_witness :
    ∃ q2 st2,
      Workflow.execute_agent_task envDeleg 21 "boss" delegTask
          ⟨[], some delegTask, []⟩ stDeleg = some (.ok (q2, st2)) ∧
      (∃ m ∈ (st2.getAgent "boss").messages, ∃ pre post,
          m.content = pre ++ "RESULT-X-1234567890" ++ post) ∧
      subStW.genCount + 1 ≤ st2.genCount ∧
      q2.completed_tasks = ([] : List Task) ++ [delegTask] ∧
      q2.current_task = none :=
  (delegation_round_trip envDeleg 20 "boss" "Delegate analysis"
      "Delegate the analysis to helper" "boss" "helper"
      "Analyze every file in the target directory"
      ⟨[], some delegTask, []⟩ stDeleg subQW subStW rfl rfl rfl).1
    ((subQW.completed_tasks.getLast?).getD default) "RESULT-X-1234567890" rfl rfl
    (by decide)

end HiveMind
